import Mathlib

/-!
# Washer-Dryer Notifier: shallow embedding and verification

Shallow embedding of `src/Washer_Dryer_Notifier.ino` (ESP8266 Arduino sketch).

Modelling conventions:
* One `loop()` iteration is a tick taking the raw sensor reading (the result
  of `digitalRead(VIB_PIN)`, an `Int` that is 0 or 1 on real hardware) and the
  current true monotonic time `now : Nat` in milliseconds.  `millis()` is a
  32-bit unsigned counter, so the code observes `now % 2^32`.  Within one
  iteration the code calls `millis()` several times; the embedding uses a
  single `now` per tick.
* `lastVibrationStateChange` is declared `long` in the sketch but only ever
  stores `millis()` values and is only consumed by converting back to
  `unsigned long` inside the subtraction `millis() - lastVibrationStateChange`
  (integer conversions are value-preserving modulo 2^32), so the field is
  modelled as the stored counter value modulo 2^32, a `Nat < 2^32`.
* The Arduino core used by this sketch defines `abs` as the macro
  `((x)>0?(x):-(x))`, which is the identity on the `unsigned long` result of
  `millis() - lastVibrationStateChange`; `elapsedMs` models that whole
  expression.
* `washerDryerStarted`/`washerDryerNotification` block inside
  `while (!event.connect())`; the IFTTT channel is modelled as an oracle
  `Nat → Bool` giving the result of each successive `connect()` attempt,
  together with the assumption that some attempt succeeds (otherwise the
  sketch never returns from the loop).  The procedures are embedded as the
  trace of channel actions they perform; the `delay(100)` calls and serial
  prints perform no channel action and leave no trace.
* Emitted lifecycle events (`CycleStarted` for `washerDryerStarted`,
  `CycleStopped` for `washerDryerNotification`) are collected in a list
  returned by each tick.
-/

/-- Width of the 32-bit `millis()` counter: 2^32. -/
def W : Nat := 4294967296

/-- Lifecycle events emitted by the detector. -/
inductive CycleEvent : Type
  | CycleStarted : CycleEvent
  | CycleStopped : CycleEvent
deriving DecidableEq, Repr

/-- The compile-time configuration constants of the sketch
(`VIBRATION_MONITORING_THRESHOLD` and the two delays, the latter already
converted from seconds to milliseconds by `* 1000` as in the comparisons). -/
structure Config : Type where
  threshold : Int
  stoppedDelayMs : Nat
  resetDelayMs : Nat
deriving DecidableEq, Repr

/-- The configuration hard-coded in the sketch: threshold 5000,
`150 * 1000` ms stop delay, `180 * 1000` ms counter-reset delay. -/
def defaultConfig : Config :=
  { threshold := 5000, stoppedDelayMs := 150 * 1000, resetDelayMs := 180 * 1000 }

/-- The mutable globals of the sketch: `vibrationState` (1 = accumulating,
0 = monitoring for stop), `lastVibrationStateChange` (stored `millis()` value
mod 2^32), `previousVibrationValue`, `vibrationCounter`, `startedTime`. -/
structure MachineState : Type where
  vibrationState : Int
  lastVibrationStateChange : Nat
  previousVibrationValue : Int
  vibrationCounter : Int
  startedTime : Nat
deriving DecidableEq, Repr

/-- The value of `abs(millis() - lastVibrationStateChange)` at true time
`now`, given the stored timestamp `lastStored`: unsigned 32-bit subtraction
(the Arduino `abs` macro is the identity on the unsigned result). -/
def elapsedMs (now lastStored : Nat) : Nat :=
  (now % W + W - lastStored % W) % W

/-- The globals as `setup()` leaves them at true time `t0`
(lines 101–105 of the sketch). -/
def initialState (t0 : Nat) : MachineState :=
  { vibrationState := 1
    lastVibrationStateChange := t0 % W
    previousVibrationValue := 0
    vibrationCounter := 0
    startedTime := 0 }

/-- The edge-detection half of `checkForVibration` (lines 146–153): if the
reading differs from `previousVibrationValue`, flip it via
`abs(previousVibrationValue - 1)`, increment `vibrationCounter` when
`vibrationState == 1`, and stamp `lastVibrationStateChange = millis()`. -/
def edgeUpdate (r : Int) (now : Nat) (s : MachineState) : MachineState :=
  if r ≠ s.previousVibrationValue then
    { s with
      previousVibrationValue := ((s.previousVibrationValue - 1).natAbs : Int)
      vibrationCounter :=
        if s.vibrationState = 1 then s.vibrationCounter + 1 else s.vibrationCounter
      lastVibrationStateChange := now % W }
  else s

/-- `checkForVibration` (lines 143–158): edge detection, then the
inactivity reset `vibrationCounter = 0` when in state 1 and
`abs(millis() - lastVibrationStateChange) > VIBRATION_COUNTER_RESET_DELAY_SECONDS * 1000`. -/
def checkForVibration (cfg : Config) (r : Int) (now : Nat) (s : MachineState) : MachineState :=
  let s1 := edgeUpdate r now s
  if s1.vibrationState = 1 ∧ elapsedMs now s1.lastVibrationStateChange > cfg.resetDelayMs then
    { s1 with vibrationCounter := 0 }
  else s1

/-- `checkForVibrationStop` (lines 159–170): when
`abs(millis() - lastVibrationStateChange) > VIBRATION_STOPPED_TIME_DELAY_SECONDS * 1000`,
emit the stopped notification, set `vibrationState = 1`, `vibrationCounter = 0`. -/
def checkForVibrationStop (cfg : Config) (now : Nat) (s : MachineState) :
    MachineState × List CycleEvent :=
  if elapsedMs now s.lastVibrationStateChange > cfg.stoppedDelayMs then
    ({ s with vibrationState := 1, vibrationCounter := 0 }, [CycleEvent.CycleStopped])
  else (s, [])

/-- `checkVibrationCounter` (lines 172–183): when
`vibrationCounter > VIBRATION_MONITORING_THRESHOLD`, set `vibrationCounter = 0`,
`vibrationState = 0`, `startedTime = millis()`, and emit the started
notification. -/
def checkVibrationCounter (cfg : Config) (now : Nat) (s : MachineState) :
    MachineState × List CycleEvent :=
  if s.vibrationCounter > cfg.threshold then
    ({ s with vibrationCounter := 0, vibrationState := 0, startedTime := now % W },
      [CycleEvent.CycleStarted])
  else (s, [])

/-- `loop()` (lines 185–193): `checkForVibration`, then dispatch on
`vibrationState` (0 → `checkForVibrationStop`, 1 → `checkVibrationCounter`). -/
def loopTick (cfg : Config) (r : Int) (now : Nat) (s : MachineState) :
    MachineState × List CycleEvent :=
  let s1 := checkForVibration cfg r now s
  if s1.vibrationState = 0 then checkForVibrationStop cfg now s1
  else if s1.vibrationState = 1 then checkVibrationCounter cfg now s1
  else (s1, [])

/-- Run a sequence of ticks, each given as a pair (reading, true time),
collecting the emitted lifecycle events in order. -/
def run (cfg : Config) (s : MachineState) : List (Int × Nat) → MachineState × List CycleEvent
  | [] => (s, [])
  | (r, t) :: rest =>
    let step := loopTick cfg r t s
    let next := run cfg step.1 rest
    (next.1, step.2 ++ next.2)

/-- States reachable from some `setup()` state by ticks whose readings are
the 0/1 values `digitalRead` can return. -/
inductive Reachable (cfg : Config) : MachineState → Prop
  | init (t0 : Nat) : Reachable cfg (initialState t0)
  | step (s : MachineState) (r : Int) (t : Nat) (hr : r = 0 ∨ r = 1)
      (h : Reachable cfg s) : Reachable cfg (loopTick cfg r t s).1

/-! ## Notification procedures (lines 109–142)

`washerDryerNotification` and `washerDryerStarted` talk to the two
`DataToMaker` channel objects `event` and `event2`; the embedding records the
trace of channel actions each procedure performs. -/

/-- `STARTED_MESSAGE` (line 43). -/
def STARTED_MESSAGE : String := "Washer started."

/-- `STOPPED_MESSAGE` (line 44). -/
def STOPPED_MESSAGE : String := "Washer is done."

/-- One observable action performed against a notification channel
(channel 1 is the `event` object, channel 2 is `event2`). -/
inductive ChanAction : Type
  | connectAttempt (channel : Nat) (ok : Bool) : ChanAction
  | setValue (channel : Nat) (slot : Nat) (msg : String) : ChanAction
  | post (channel : Nat) : ChanAction
deriving DecidableEq, Repr

/-- Trace of `while (!event.connect()) { ... }` against a channel whose
successive `connect()` attempts return `c 0, c 1, ...`: the loop performs
attempts `0, 1, ...` up to and including the first successful one
(the hypothesis `h` is the termination assumption that some attempt
succeeds; otherwise the sketch blocks forever). -/
def connectRetryTrace (channel : Nat) (c : Nat → Bool) (h : ∃ n, c n = true) :
    List ChanAction :=
  (List.range (Nat.find h + 1)).map fun k => ChanAction.connectAttempt channel (c k)

/-- The per-channel body shared by both notification procedures: blocking
connect-retry loop, then `setValue(1, msg)`, then `post()` (the interleaved
`delay(100)` performs no channel action). -/
def notifyChannelTrace (channel : Nat) (c : Nat → Bool) (h : ∃ n, c n = true)
    (msg : String) : List ChanAction :=
  connectRetryTrace channel c h ++
    [ChanAction.setValue channel 1 msg, ChanAction.post channel]

/-- `washerDryerNotification` (lines 109–125): channel 1 then channel 2,
each with `STOPPED_MESSAGE`. -/
def washerDryerNotificationTrace (c1 c2 : Nat → Bool)
    (h1 : ∃ n, c1 n = true) (h2 : ∃ n, c2 n = true) : List ChanAction :=
  notifyChannelTrace 1 c1 h1 STOPPED_MESSAGE ++ notifyChannelTrace 2 c2 h2 STOPPED_MESSAGE

/-- `washerDryerStarted` (lines 126–142): channel 1 then channel 2,
each with `STARTED_MESSAGE`. -/
def washerDryerStartedTrace (c1 c2 : Nat → Bool)
    (h1 : ∃ n, c1 n = true) (h2 : ∃ n, c2 n = true) : List ChanAction :=
  notifyChannelTrace 1 c1 h1 STARTED_MESSAGE ++ notifyChannelTrace 2 c2 h2 STARTED_MESSAGE

/-! ## Concrete scenario material -/

/-- The spec's scenario configuration: threshold 5, the sketch's delays. -/
def scenarioConfig : Config :=
  { threshold := 5, stoppedDelayMs := 150 * 1000, resetDelayMs := 180 * 1000 }

/-- Five alternating readings at 1 ms intervals (five edges from the
initial `previousVibrationValue = 0`). -/
def fiveEdges : List (Int × Nat) := [(1, 1), (0, 2), (1, 3), (0, 4), (1, 5)]

/-- Six alternating readings at 1 ms intervals (six edges). -/
def sixEdges : List (Int × Nat) := fiveEdges ++ [(0, 6)]

/-- A channel whose first `connect()` attempt fails and whose second
succeeds. -/
def connectSecondTry : Nat → Bool := fun n => decide (1 ≤ n)

/-- A concrete state in the MonitoringForStop detector state, used as a
test input. -/
def monitoringProbe : MachineState :=
  { vibrationState := 0, lastVibrationStateChange := 0, previousVibrationValue := 0,
    vibrationCounter := 0, startedTime := 0 }

/-- Well-formedness of a machine state: `vibrationState` and
`previousVibrationValue` are 0/1 valued, the counter is non-negative, the
counter is zero while monitoring for a stop, and (for a non-negative
threshold) the counter never exceeds the threshold while accumulating. -/
def GoodState (cfg : Config) (s : MachineState) : Prop :=
  (s.vibrationState = 0 ∨ s.vibrationState = 1) ∧
  0 ≤ s.vibrationCounter ∧
  (s.previousVibrationValue = 0 ∨ s.previousVibrationValue = 1) ∧
  (s.vibrationState = 0 → s.vibrationCounter = 0) ∧
  (0 ≤ cfg.threshold → s.vibrationState = 1 → s.vibrationCounter ≤ cfg.threshold)

/-- The opposite lifecycle event. -/
def nextAfter : CycleEvent → CycleEvent
  | CycleEvent.CycleStarted => CycleEvent.CycleStopped
  | CycleEvent.CycleStopped => CycleEvent.CycleStarted

/-- `alternatesFrom e evs` holds when `evs` is a prefix of the strictly
alternating stream `e, nextAfter e, e, nextAfter e, ...`. -/
def alternatesFrom : CycleEvent → List CycleEvent → Bool
  | _, [] => true
  | e, x :: xs => if x = e then alternatesFrom (nextAfter e) xs else false

/-- The event the detector would emit next, given its current state. -/
def expectedEvent (s : MachineState) : CycleEvent :=
  if s.vibrationState = 1 then CycleEvent.CycleStarted else CycleEvent.CycleStopped

/-- `connectSecondTry` eventually connects. -/
theorem connectSecondTry_succeeds : ∃ n, connectSecondTry n = true := ⟨1, rfl⟩

/-! ## Invariants of the reachable states -/

lemma goodState_initialState (cfg : Config) (t0 : Nat) :
    GoodState cfg (initialState t0) := by
  simp [GoodState, initialState]

lemma checkForVibration_vibrationState (cfg : Config) (r : Int) (now : Nat)
    (s : MachineState) :
    (checkForVibration cfg r now s).vibrationState = s.vibrationState := by
  simp only [checkForVibration, edgeUpdate]
  split_ifs <;> rfl

lemma checkForVibration_startedTime (cfg : Config) (r : Int) (now : Nat)
    (s : MachineState) :
    (checkForVibration cfg r now s).startedTime = s.startedTime := by
  simp only [checkForVibration, edgeUpdate]
  split_ifs <;> rfl

set_option maxRecDepth 8000 in
lemma goodState_loopTick (cfg : Config) (s : MachineState) (r : Int) (t : Nat)
    (h : GoodState cfg s) : GoodState cfg (loopTick cfg r t s).1 := by
  obtain ⟨vs, lt, pv, vc, st⟩ := s
  obtain ⟨h01, hnn, hpv, hmz, hth⟩ := h
  simp only [GoodState] at hmz hth ⊢
  simp only at hnn
  rcases h01 with h01 | h01 <;> subst h01 <;>
    rcases hpv with hpv | hpv <;> subst hpv <;>
      simp only [loopTick, checkForVibration, edgeUpdate, checkForVibrationStop,
        checkVibrationCounter] <;>
      split_ifs <;> dsimp only at * <;>
        refine ⟨?_, ?_, ?_, ?_, ?_⟩ <;> omega

lemma reachable_goodState (cfg : Config) (s : MachineState)
    (h : Reachable cfg s) : GoodState cfg s := by
  induction h with
  | init t0 => exact goodState_initialState cfg t0
  | step s r t hr h ih => exact goodState_loopTick cfg s r t ih

/-- Every tick emits either no event, or a single `CycleStarted` leaving
state 1 for state 0, or a single `CycleStopped` leaving state 0 for state 1. -/
lemma loopTick_cases (cfg : Config) (r : Int) (t : Nat) (s : MachineState)
    (h01 : s.vibrationState = 0 ∨ s.vibrationState = 1) :
    ((loopTick cfg r t s).2 = [] ∧
      (loopTick cfg r t s).1.vibrationState = s.vibrationState) ∨
    (s.vibrationState = 1 ∧ (loopTick cfg r t s).2 = [CycleEvent.CycleStarted] ∧
      (loopTick cfg r t s).1.vibrationState = 0) ∨
    (s.vibrationState = 0 ∧ (loopTick cfg r t s).2 = [CycleEvent.CycleStopped] ∧
      (loopTick cfg r t s).1.vibrationState = 1) := by
  obtain ⟨vs, lt, pv, vc, st⟩ := s
  rcases h01 with h01 | h01 <;> subst h01 <;>
    simp only [loopTick, checkForVibration, edgeUpdate, checkForVibrationStop,
      checkVibrationCounter] <;>
    split_ifs <;> simp_all

/-! ## Event alternation -/

lemma run_alternates (cfg : Config) (inputs : List (Int × Nat)) :
    ∀ s : MachineState, (s.vibrationState = 0 ∨ s.vibrationState = 1) →
      alternatesFrom (expectedEvent s) (run cfg s inputs).2 = true := by
  induction inputs with
  | nil => intro s _; rfl
  | cons p rest ih =>
    intro s h01
    obtain ⟨r, t⟩ := p
    simp only [run]
    rcases loopTick_cases cfg r t s h01 with ⟨he, hst⟩ | ⟨hs1, he, hst⟩ | ⟨hs0, he, hst⟩
    · rw [he, List.nil_append]
      have hexp : expectedEvent (loopTick cfg r t s).1 = expectedEvent s := by
        simp only [expectedEvent, hst]
      rw [← hexp]
      exact ih _ (by rw [hst]; exact h01)
    · rw [he]
      have hexp : expectedEvent s = CycleEvent.CycleStarted := by
        simp [expectedEvent, hs1]
      rw [hexp]
      simp only [List.singleton_append, alternatesFrom, nextAfter, if_pos]
      have hexp2 : expectedEvent (loopTick cfg r t s).1 = CycleEvent.CycleStopped := by
        simp [expectedEvent, hst]
      rw [← hexp2]
      exact ih _ (Or.inl hst)
    · rw [he]
      have hexp : expectedEvent s = CycleEvent.CycleStopped := by
        simp [expectedEvent, hs0]
      rw [hexp]
      simp only [List.singleton_append, alternatesFrom, nextAfter, if_pos]
      have hexp2 : expectedEvent (loopTick cfg r t s).1 = CycleEvent.CycleStarted := by
        simp [expectedEvent, hst]
      rw [← hexp2]
      exact ih _ (Or.inr hst)

/-! ## Quiescent ticks -/

lemma loopTick_stutter (cfg : Config) (s : MachineState) (t : Nat)
    (h01 : s.vibrationState = 0 ∨ s.vibrationState = 1)
    (hcnt : s.vibrationState = 1 → s.vibrationCounter ≤ cfg.threshold)
    (ht1 : elapsedMs t s.lastVibrationStateChange ≤ cfg.resetDelayMs)
    (ht0 : elapsedMs t s.lastVibrationStateChange ≤ cfg.stoppedDelayMs) :
    loopTick cfg s.previousVibrationValue t s = (s, []) := by
  obtain ⟨vs, lt, pv, vc, st⟩ := s
  dsimp only at *
  rcases h01 with h01 | h01 <;> subst h01
  · simp only [loopTick, checkForVibration, edgeUpdate, checkForVibrationStop,
      checkVibrationCounter]
    split_ifs <;> dsimp only at * <;> first | rfl | omega
  · have hcnt' : vc ≤ cfg.threshold := hcnt rfl
    simp only [loopTick, checkForVibration, edgeUpdate, checkForVibrationStop,
      checkVibrationCounter]
    split_ifs <;> dsimp only at * <;> first | rfl | omega

lemma run_stutter (cfg : Config) (s : MachineState) (ts : List Nat)
    (h01 : s.vibrationState = 0 ∨ s.vibrationState = 1)
    (hcnt : s.vibrationState = 1 → s.vibrationCounter ≤ cfg.threshold)
    (hts : ∀ t ∈ ts, elapsedMs t s.lastVibrationStateChange ≤ cfg.resetDelayMs ∧
      elapsedMs t s.lastVibrationStateChange ≤ cfg.stoppedDelayMs) :
    run cfg s (ts.map fun t => (s.previousVibrationValue, t)) = (s, []) := by
  induction ts with
  | nil => rfl
  | cons t ts ih =>
    have ht := hts t (List.mem_cons_self t ts)
    simp only [List.map_cons, run]
    rw [loopTick_stutter cfg s t h01 hcnt ht.1 ht.2]
    rw [show ((s, ([] : List CycleEvent)).1) = s from rfl,
      ih (fun u hu => hts u (List.mem_cons_of_mem t hu))]
    rfl

/-! ## Notification trace shape -/

lemma connectRetryTrace_eq (channel : Nat) (c : Nat → Bool) (h : ∃ n, c n = true) :
    connectRetryTrace channel c h =
      List.replicate (Nat.find h) (ChanAction.connectAttempt channel false) ++
        [ChanAction.connectAttempt channel true] := by
  unfold connectRetryTrace
  rw [List.range_succ, List.map_append]
  congr 1
  · rw [List.eq_replicate_iff]
    refine ⟨by simp, ?_⟩
    intro b hb
    simp only [List.mem_map, List.mem_range] at hb
    obtain ⟨k, hk, rfl⟩ := hb
    have hne := Nat.find_min h hk
    rw [Bool.not_eq_true] at hne
    rw [hne]
  · simp [Nat.find_spec h]

/-! ## Branch lemmas for the component functions -/

lemma edgeUpdate_vibrationState (r : Int) (now : Nat) (s : MachineState) :
    (edgeUpdate r now s).vibrationState = s.vibrationState := by
  unfold edgeUpdate; split_ifs <;> rfl

lemma edgeUpdate_noedge (r : Int) (now : Nat) (s : MachineState)
    (he : r = s.previousVibrationValue) : edgeUpdate r now s = s := by
  unfold edgeUpdate
  rw [if_neg (fun hc => hc he)]

lemma edgeUpdate_edge (r : Int) (now : Nat) (s : MachineState)
    (he : r ≠ s.previousVibrationValue) :
    edgeUpdate r now s =
      { s with
        previousVibrationValue := ((s.previousVibrationValue - 1).natAbs : Int)
        vibrationCounter :=
          if s.vibrationState = 1 then s.vibrationCounter + 1 else s.vibrationCounter
        lastVibrationStateChange := now % W } := by
  unfold edgeUpdate
  rw [if_pos he]

lemma edgeUpdate_counter_noincr (r : Int) (now : Nat) (s : MachineState)
    (h : r = s.previousVibrationValue ∨ s.vibrationState ≠ 1) :
    (edgeUpdate r now s).vibrationCounter = s.vibrationCounter := by
  by_cases he : r = s.previousVibrationValue
  · rw [edgeUpdate_noedge r now s he]
  · rcases h with h | h
    · exact absurd h he
    · rw [edgeUpdate_edge r now s he]
      show (if s.vibrationState = 1 then s.vibrationCounter + 1 else s.vibrationCounter) =
        s.vibrationCounter
      rw [if_neg h]

lemma checkForVibration_split (cfg : Config) (r : Int) (now : Nat) (s : MachineState) :
    checkForVibration cfg r now s =
      if s.vibrationState = 1 ∧
          elapsedMs now (edgeUpdate r now s).lastVibrationStateChange > cfg.resetDelayMs then
        { edgeUpdate r now s with vibrationCounter := 0 }
      else edgeUpdate r now s := by
  simp only [checkForVibration]
  rw [edgeUpdate_vibrationState]

lemma checkForVibration_lastChange (cfg : Config) (r : Int) (now : Nat) (s : MachineState) :
    (checkForVibration cfg r now s).lastVibrationStateChange =
      (edgeUpdate r now s).lastVibrationStateChange := by
  rw [checkForVibration_split]
  split_ifs <;> rfl

lemma checkForVibration_counter_cases (cfg : Config) (r : Int) (now : Nat) (s : MachineState) :
    (checkForVibration cfg r now s).vibrationCounter = 0 ∨
    (checkForVibration cfg r now s).vibrationCounter = (edgeUpdate r now s).vibrationCounter := by
  rw [checkForVibration_split]
  split_ifs
  · exact Or.inl rfl
  · exact Or.inr rfl

lemma elapsedMs_self (now : Nat) : elapsedMs now (now % W) = 0 := by
  simp only [elapsedMs, W]
  omega

lemma loopTick_state1 (cfg : Config) (r : Int) (now : Nat) (s : MachineState)
    (hs : s.vibrationState = 1) :
    loopTick cfg r now s = checkVibrationCounter cfg now (checkForVibration cfg r now s) := by
  simp only [loopTick]
  rw [checkForVibration_vibrationState, hs]
  simp

lemma loopTick_state0 (cfg : Config) (r : Int) (now : Nat) (s : MachineState)
    (hs : s.vibrationState = 0) :
    loopTick cfg r now s = checkForVibrationStop cfg now (checkForVibration cfg r now s) := by
  simp only [loopTick]
  rw [checkForVibration_vibrationState, hs]
  simp

lemma loopTick_counter_cases (cfg : Config) (r : Int) (now : Nat) (s : MachineState) :
    (loopTick cfg r now s).1.vibrationCounter = 0 ∨
    (loopTick cfg r now s).1.vibrationCounter = (checkForVibration cfg r now s).vibrationCounter := by
  simp only [loopTick, checkForVibrationStop, checkVibrationCounter]
  split_ifs <;> simp

/-! ## The claims -/

/-- C1: in the Accumulating state (`vibrationState = 1`), a tick transitions
to MonitoringForStop (`vibrationState = 0`) exactly when the vibration
counter at the threshold check is strictly greater than the threshold — a
count equal to the threshold does not trigger — and on that transition the
counter is reset to 0; with threshold 5, six alternating readings within the
reset window transition exactly after the 6th edge, with the count reset. -/
theorem C1_accumulating_threshold_transition (cfg : Config) (s : MachineState)
    (r : Int) (t : Nat) (hs : s.vibrationState = 1) :
    ((loopTick cfg r t s).1.vibrationState = 0 ↔
      (checkForVibration cfg r t s).vibrationCounter > cfg.threshold) ∧
    ((checkForVibration cfg r t s).vibrationCounter = cfg.threshold →
      (loopTick cfg r t s).1.vibrationState = 1) ∧
    ((loopTick cfg r t s).1.vibrationState = 0 →
      (loopTick cfg r t s).1.vibrationCounter = 0) ∧
    (run scenarioConfig (initialState 0) fiveEdges).1.vibrationState = 1 ∧
    run scenarioConfig (initialState 0) sixEdges =
      ({ vibrationState := 0, lastVibrationStateChange := 6, previousVibrationValue := 0,
          vibrationCounter := 0, startedTime := 6 }, [CycleEvent.CycleStarted]) := by
  have hstate1 : (checkForVibration cfg r t s).vibrationState = 1 := by
    rw [checkForVibration_vibrationState, hs]
  rw [loopTick_state1 cfg r t s hs]
  unfold checkVibrationCounter
  split_ifs with hgt
  · refine ⟨⟨fun _ => hgt, fun _ => rfl⟩, fun heq => absurd hgt (by omega),
      fun _ => rfl, by decide, by decide⟩
  · refine ⟨⟨fun h0 => ?_, fun hh => absurd hh hgt⟩, fun _ => hstate1,
      fun h0 => ?_, by decide, by decide⟩
    · rw [show ((checkForVibration cfg r t s, ([] : List CycleEvent)).1.vibrationState)
        = (checkForVibration cfg r t s).vibrationState from rfl, hstate1] at h0
      exact absurd h0 (by decide)
    · rw [show ((checkForVibration cfg r t s, ([] : List CycleEvent)).1.vibrationState)
        = (checkForVibration cfg r t s).vibrationState from rfl, hstate1] at h0
      exact absurd h0 (by decide)

/-- C2: in the MonitoringForStop state (`vibrationState = 0`), a tick
transitions back to Accumulating exactly when the elapsed time since the
(possibly edge-refreshed) `lastVibrationStateChange` strictly exceeds the
stop delay, independently of the counter; on that transition the counter is
reset to 0 and exactly one `CycleStopped` is emitted, otherwise no event is
emitted; Scenario 3: after the six-edge start, silence for the stop delay
plus one emits exactly one `CycleStopped` and returns to Accumulating. -/
theorem C2_monitoring_stop_transition (cfg : Config) (s : MachineState)
    (r : Int) (t : Nat) (hs : s.vibrationState = 0) :
    ((loopTick cfg r t s).1.vibrationState = 1 ↔
      elapsedMs t (checkForVibration cfg r t s).lastVibrationStateChange > cfg.stoppedDelayMs) ∧
    (elapsedMs t (checkForVibration cfg r t s).lastVibrationStateChange > cfg.stoppedDelayMs →
      (loopTick cfg r t s).1.vibrationCounter = 0 ∧
      (loopTick cfg r t s).2 = [CycleEvent.CycleStopped]) ∧
    (¬ elapsedMs t (checkForVibration cfg r t s).lastVibrationStateChange > cfg.stoppedDelayMs →
      (loopTick cfg r t s).2 = []) ∧
    run scenarioConfig (initialState 0) (sixEdges ++ [(0, 150007)]) =
      ({ vibrationState := 1, lastVibrationStateChange := 6, previousVibrationValue := 0,
          vibrationCounter := 0, startedTime := 6 },
        [CycleEvent.CycleStarted, CycleEvent.CycleStopped]) := by
  have hstate0 : (checkForVibration cfg r t s).vibrationState = 0 := by
    rw [checkForVibration_vibrationState, hs]
  rw [loopTick_state0 cfg r t s hs]
  unfold checkForVibrationStop
  split_ifs with hto
  · exact ⟨⟨fun _ => hto, fun _ => rfl⟩, fun _ => ⟨rfl, rfl⟩,
      fun hn => absurd hto hn, by decide⟩
  · refine ⟨⟨fun h1 => ?_, fun hh => absurd hh hto⟩, fun hh => absurd hh hto,
      fun _ => rfl, by decide⟩
    rw [show ((checkForVibration cfg r t s, ([] : List CycleEvent)).1.vibrationState)
      = (checkForVibration cfg r t s).vibrationState from rfl, hstate0] at h1
    exact absurd h1 (by decide)

/-- C3 counterexample: a reachable Accumulating state (three edges from
startup, so `previousVibrationValue = 1`, `vibrationCounter = 3`) on a tick
whose reading equals the stored sensor level (no edge) at a time past the
counter-reset window: `vibrationCounter` changes from 3 to 0, refuting
"if the reading equals the stored SensorLevel, none of these fields
change". -/
theorem C3_no_edge_reset_counterexample :
    (run scenarioConfig (initialState 0) [(1, 1), (0, 2), (1, 3)]).1 =
      { vibrationState := 1, lastVibrationStateChange := 3, previousVibrationValue := 1,
        vibrationCounter := 3, startedTime := 0 } ∧
    (1 : Int) =
      (run scenarioConfig (initialState 0) [(1, 1), (0, 2), (1, 3)]).1.previousVibrationValue ∧
    (run scenarioConfig (initialState 0) [(1, 1), (0, 2), (1, 3)]).1.vibrationCounter = 3 ∧
    (checkForVibration scenarioConfig 1 180004
        (run scenarioConfig (initialState 0) [(1, 1), (0, 2), (1, 3)]).1).vibrationCounter = 0 := by
  decide

/-- C3 (amended): on an edge tick, `SensorLevel` is flipped,
`LastTransitionTimestamp` is stamped with the current time, and the counter
is incremented exactly when Accumulating; on a no-edge tick, `SensorLevel`
and `LastTransitionTimestamp` are unchanged and the counter is unchanged
EXCEPT that it is reset to 0 when Accumulating and the inactivity timeout
has fired; over every run, the counter only increases on an Accumulating
tick whose reading differs from the stored level. -/
theorem C3_edge_semantics (cfg : Config) (s : MachineState) (r : Int) (t : Nat)
    (hR : Reachable cfg s) :
    (r ≠ s.previousVibrationValue →
      (checkForVibration cfg r t s).previousVibrationValue =
          ((s.previousVibrationValue - 1).natAbs : Int) ∧
      (checkForVibration cfg r t s).lastVibrationStateChange = t % W ∧
      (checkForVibration cfg r t s).vibrationCounter =
        (if s.vibrationState = 1 then s.vibrationCounter + 1 else s.vibrationCounter)) ∧
    (r = s.previousVibrationValue →
      (checkForVibration cfg r t s).previousVibrationValue = s.previousVibrationValue ∧
      (checkForVibration cfg r t s).lastVibrationStateChange = s.lastVibrationStateChange ∧
      (checkForVibration cfg r t s).vibrationCounter =
        (if s.vibrationState = 1 ∧ elapsedMs t s.lastVibrationStateChange > cfg.resetDelayMs
          then 0 else s.vibrationCounter)) ∧
    ((loopTick cfg r t s).1.vibrationCounter > s.vibrationCounter →
      s.vibrationState = 1 ∧ r ≠ s.previousVibrationValue) := by
  refine ⟨fun he => ?_, fun he => ?_, fun hgt => ?_⟩
  · have hlast : (edgeUpdate r t s).lastVibrationStateChange = t % W := by
      rw [edgeUpdate_edge r t s he]
    rw [checkForVibration_split, if_neg]
    · rw [edgeUpdate_edge r t s he]
      exact ⟨rfl, rfl, rfl⟩
    · rintro ⟨-, habs⟩
      rw [hlast, elapsedMs_self] at habs
      omega
  · rw [checkForVibration_split, edgeUpdate_noedge r t s he]
    split_ifs with hc
    · exact ⟨rfl, rfl, rfl⟩
    · exact ⟨rfl, rfl, rfl⟩
  · have g := reachable_goodState cfg s hR
    have h0 : 0 ≤ s.vibrationCounter := g.2.1
    by_cases hs1 : s.vibrationState = 1 <;> by_cases he : r = s.previousVibrationValue
    · exfalso
      have h1 := loopTick_counter_cases cfg r t s
      have h2 := checkForVibration_counter_cases cfg r t s
      have h3 := edgeUpdate_counter_noincr r t s (Or.inl he)
      omega
    · exact ⟨hs1, he⟩
    · exfalso
      have h1 := loopTick_counter_cases cfg r t s
      have h2 := checkForVibration_counter_cases cfg r t s
      have h3 := edgeUpdate_counter_noincr r t s (Or.inl he)
      omega
    · exfalso
      have h1 := loopTick_counter_cases cfg r t s
      have h2 := checkForVibration_counter_cases cfg r t s
      have h3 := edgeUpdate_counter_noincr r t s (Or.inr hs1)
      omega

/-- C4: on an Accumulating tick whose (possibly edge-refreshed) timestamp is
older than the counter-reset window, the counter is reset to 0, the state
stays Accumulating and no event is emitted (for the sketch's non-negative
threshold); the reset never fires in MonitoringForStop; Scenario 2: five
edges then silence longer than the reset window leave Accumulating with
count 0 and no event. -/
theorem C4_inactivity_reset (cfg : Config) (s s2 : MachineState) (r : Int) (t : Nat)
    (hth : 0 ≤ cfg.threshold) (hs : s.vibrationState = 1)
    (hto : elapsedMs t (checkForVibration cfg r t s).lastVibrationStateChange >
      cfg.resetDelayMs)
    (hs2 : s2.vibrationState = 0) :
    (loopTick cfg r t s).1.vibrationCounter = 0 ∧
    (loopTick cfg r t s).1.vibrationState = 1 ∧
    (loopTick cfg r t s).2 = [] ∧
    (checkForVibration cfg r t s2).vibrationCounter = s2.vibrationCounter ∧
    run scenarioConfig (initialState 0) (fiveEdges ++ [(1, 180006)]) =
      ({ vibrationState := 1, lastVibrationStateChange := 5, previousVibrationValue := 1,
          vibrationCounter := 0, startedTime := 0 }, []) := by
  rw [checkForVibration_lastChange] at hto
  have hz : (checkForVibration cfg r t s).vibrationCounter = 0 := by
    rw [checkForVibration_split, if_pos ⟨hs, hto⟩]
  rw [loopTick_state1 cfg r t s hs]
  unfold checkVibrationCounter
  rw [if_neg (by omega : ¬ (checkForVibration cfg r t s).vibrationCounter > cfg.threshold)]
  refine ⟨hz, ?_, rfl, ?_, by decide⟩
  · rw [show ((checkForVibration cfg r t s, ([] : List CycleEvent)).1.vibrationState)
      = (checkForVibration cfg r t s).vibrationState from rfl,
      checkForVibration_vibrationState, hs]
  · rw [checkForVibration_split]
    rw [if_neg (by rw [hs2]; rintro ⟨hc, -⟩; exact absurd hc (by decide))]
    exact edgeUpdate_counter_noincr r t s2 (Or.inr (by rw [hs2]; decide))

/-- C5: the sketch's elapsed-time expression
`abs(millis() - lastVibrationStateChange)` (lines 154 and 162), an unsigned
32-bit subtraction of the current counter from the stored one, equals the
true elapsed time — and hence gives the correct threshold comparison — for
every elapsed time below 2^32, including when the counter wraps between the
stored timestamp and now. -/
theorem C5_wraparound_elapsed (tLast now delay : Nat)
    (hle : tLast ≤ now) (hspan : now - tLast < W) :
    elapsedMs now (tLast % W) = now - tLast ∧
    (elapsedMs now (tLast % W) > delay ↔ now - tLast > delay) := by
  simp only [elapsedMs, W] at hspan ⊢
  omega

/-- C6: from any reachable state, ticks whose reading equals the stored
sensor level (no edge) and whose time satisfies neither inactivity-timeout
condition leave the whole machine state unchanged and emit nothing, for any
number of repetitions. -/
theorem C6_no_edge_idempotent (cfg : Config) (s : MachineState) (ts : List Nat)
    (hth : 0 ≤ cfg.threshold) (hR : Reachable cfg s)
    (hts : ∀ t ∈ ts, elapsedMs t s.lastVibrationStateChange ≤ cfg.resetDelayMs ∧
      elapsedMs t s.lastVibrationStateChange ≤ cfg.stoppedDelayMs) :
    run cfg s (ts.map fun t => (s.previousVibrationValue, t)) = (s, []) := by
  have g := reachable_goodState cfg s hR
  exact run_stutter cfg s ts g.1 (fun h1 => g.2.2.2.2 hth h1) hts

/-- C7: for each lifecycle event, the notification procedure performs, for
channel 1 (`event`) then channel 2 (`event2`), exactly: all failing
`connect()` attempts, the first succeeding attempt, `setValue(1, message)`
with the event's message, then `post()` — finite unavailability is absorbed
by the retry loop and the procedure still completes normally. -/
theorem C7_notification_sequence (c1 c2 : Nat → Bool)
    (h1 : ∃ n, c1 n = true) (h2 : ∃ n, c2 n = true) :
    washerDryerStartedTrace c1 c2 h1 h2 =
      (List.replicate (Nat.find h1) (ChanAction.connectAttempt 1 false) ++
        [ChanAction.connectAttempt 1 true, ChanAction.setValue 1 1 STARTED_MESSAGE,
          ChanAction.post 1]) ++
      (List.replicate (Nat.find h2) (ChanAction.connectAttempt 2 false) ++
        [ChanAction.connectAttempt 2 true, ChanAction.setValue 2 1 STARTED_MESSAGE,
          ChanAction.post 2]) ∧
    washerDryerNotificationTrace c1 c2 h1 h2 =
      (List.replicate (Nat.find h1) (ChanAction.connectAttempt 1 false) ++
        [ChanAction.connectAttempt 1 true, ChanAction.setValue 1 1 STOPPED_MESSAGE,
          ChanAction.post 1]) ++
      (List.replicate (Nat.find h2) (ChanAction.connectAttempt 2 false) ++
        [ChanAction.connectAttempt 2 true, ChanAction.setValue 2 1 STOPPED_MESSAGE,
          ChanAction.post 2]) := by
  unfold washerDryerStartedTrace washerDryerNotificationTrace notifyChannelTrace
  rw [connectRetryTrace_eq, connectRetryTrace_eq]
  constructor <;> simp

/-- C8: `setup()` leaves the detector Accumulating with counter 0, the
sensor level low and the timestamp stamped with the initialization time, and
every reachable state has exactly one of the two detector states active. -/
theorem C8_initial_state (cfg : Config) (t0 : Nat) (s : MachineState)
    (hR : Reachable cfg s) :
    (initialState t0).vibrationState = 1 ∧
    (initialState t0).vibrationCounter = 0 ∧
    (initialState t0).previousVibrationValue = 0 ∧
    (initialState t0).lastVibrationStateChange = t0 % W ∧
    ((s.vibrationState = 0 ∨ s.vibrationState = 1) ∧
      ¬(s.vibrationState = 0 ∧ s.vibrationState = 1)) := by
  refine ⟨rfl, rfl, rfl, rfl, (reachable_goodState cfg s hR).1, ?_⟩
  rintro ⟨h0, h1⟩
  rw [h0] at h1
  exact absurd h1 (by decide)

/-- C9: in every reachable state, being in MonitoringForStop
(`vibrationState = 0`) implies the vibration counter is 0: the counter is
zeroed on entry and neither incremented nor reset-checked in that state. -/
theorem C9_monitoring_counter_zero (cfg : Config) (s : MachineState)
    (hR : Reachable cfg s) (h0 : s.vibrationState = 0) :
    s.vibrationCounter = 0 :=
  (reachable_goodState cfg s hR).2.2.2.1 h0

/-- C10: over every run from an initial state, the emitted lifecycle events
are a prefix of the strictly alternating stream starting with
`CycleStarted`: the first event (if any) is `CycleStarted`, every
`CycleStopped` is immediately preceded by a `CycleStarted`, and no two
consecutive events are equal. -/
theorem C10_event_alternation (cfg : Config) (t0 : Nat)
    (inputs : List (Int × Nat)) :
    alternatesFrom CycleEvent.CycleStarted (run cfg (initialState t0) inputs).2 = true := by
  have h := run_alternates cfg inputs (initialState t0) (Or.inr rfl)
  simpa [expectedEvent, initialState] using h

/-! ## Concrete witnesses -/

theorem C1_witness :
    (initialState 7).vibrationState = 1 ∧
    (((loopTick scenarioConfig 1 9 (initialState 7)).1.vibrationState = 0 ↔
      (checkForVibration scenarioConfig 1 9 (initialState 7)).vibrationCounter >
        scenarioConfig.threshold) ∧
    ((checkForVibration scenarioConfig 1 9 (initialState 7)).vibrationCounter =
        scenarioConfig.threshold →
      (loopTick scenarioConfig 1 9 (initialState 7)).1.vibrationState = 1) ∧
    ((loopTick scenarioConfig 1 9 (initialState 7)).1.vibrationState = 0 →
      (loopTick scenarioConfig 1 9 (initialState 7)).1.vibrationCounter = 0) ∧
    (run scenarioConfig (initialState 0) fiveEdges).1.vibrationState = 1 ∧
    run scenarioConfig (initialState 0) sixEdges =
      ({ vibrationState := 0, lastVibrationStateChange := 6, previousVibrationValue := 0,
          vibrationCounter := 0, startedTime := 6 }, [CycleEvent.CycleStarted])) :=
  ⟨rfl, C1_accumulating_threshold_transition scenarioConfig (initialState 7) 1 9 rfl⟩

theorem C2_witness :
    monitoringProbe.vibrationState = 0 ∧
    (((loopTick scenarioConfig 0 150001 monitoringProbe).1.vibrationState = 1 ↔
      elapsedMs 150001
          (checkForVibration scenarioConfig 0 150001 monitoringProbe).lastVibrationStateChange >
        scenarioConfig.stoppedDelayMs) ∧
    (elapsedMs 150001
          (checkForVibration scenarioConfig 0 150001 monitoringProbe).lastVibrationStateChange >
        scenarioConfig.stoppedDelayMs →
      (loopTick scenarioConfig 0 150001 monitoringProbe).1.vibrationCounter = 0 ∧
      (loopTick scenarioConfig 0 150001 monitoringProbe).2 = [CycleEvent.CycleStopped]) ∧
    (¬ elapsedMs 150001
          (checkForVibration scenarioConfig 0 150001 monitoringProbe).lastVibrationStateChange >
        scenarioConfig.stoppedDelayMs →
      (loopTick scenarioConfig 0 150001 monitoringProbe).2 = []) ∧
    run scenarioConfig (initialState 0) (sixEdges ++ [(0, 150007)]) =
      ({ vibrationState := 1, lastVibrationStateChange := 6, previousVibrationValue := 0,
          vibrationCounter := 0, startedTime := 6 },
        [CycleEvent.CycleStarted, CycleEvent.CycleStopped])) :=
  ⟨rfl, C2_monitoring_stop_transition scenarioConfig monitoringProbe 0 150001 rfl⟩

theorem C3_witness :
    ((1 : Int) ≠ (initialState 3).previousVibrationValue →
      (checkForVibration scenarioConfig 1 12 (initialState 3)).previousVibrationValue =
          (((initialState 3).previousVibrationValue - 1).natAbs : Int) ∧
      (checkForVibration scenarioConfig 1 12 (initialState 3)).lastVibrationStateChange =
        12 % W ∧
      (checkForVibration scenarioConfig 1 12 (initialState 3)).vibrationCounter =
        (if (initialState 3).vibrationState = 1 then (initialState 3).vibrationCounter + 1
          else (initialState 3).vibrationCounter)) ∧
    ((1 : Int) = (initialState 3).previousVibrationValue →
      (checkForVibration scenarioConfig 1 12 (initialState 3)).previousVibrationValue =
        (initialState 3).previousVibrationValue ∧
      (checkForVibration scenarioConfig 1 12 (initialState 3)).lastVibrationStateChange =
        (initialState 3).lastVibrationStateChange ∧
      (checkForVibration scenarioConfig 1 12 (initialState 3)).vibrationCounter =
        (if (initialState 3).vibrationState = 1 ∧
            elapsedMs 12 (initialState 3).lastVibrationStateChange >
              scenarioConfig.resetDelayMs
          then 0 else (initialState 3).vibrationCounter)) ∧
    ((loopTick scenarioConfig 1 12 (initialState 3)).1.vibrationCounter >
        (initialState 3).vibrationCounter →
      (initialState 3).vibrationState = 1 ∧
      (1 : Int) ≠ (initialState 3).previousVibrationValue) :=
  C3_edge_semantics scenarioConfig (initialState 3) 1 12 (Reachable.init 3)

theorem C4_witness :
    0 ≤ scenarioConfig.threshold ∧ (initialState 0).vibrationState = 1 ∧
    monitoringProbe.vibrationState = 0 ∧
    ((loopTick scenarioConfig 0 180001 (initialState 0)).1.vibrationCounter = 0 ∧
    (loopTick scenarioConfig 0 180001 (initialState 0)).1.vibrationState = 1 ∧
    (loopTick scenarioConfig 0 180001 (initialState 0)).2 = [] ∧
    (checkForVibration scenarioConfig 0 180001 monitoringProbe).vibrationCounter =
      monitoringProbe.vibrationCounter ∧
    run scenarioConfig (initialState 0) (fiveEdges ++ [(1, 180006)]) =
      ({ vibrationState := 1, lastVibrationStateChange := 5, previousVibrationValue := 1,
          vibrationCounter := 0, startedTime := 0 }, [])) :=
  ⟨by decide, rfl, rfl,
    C4_inactivity_reset scenarioConfig (initialState 0) monitoringProbe 0 180001
      (by decide) rfl (by decide) rfl⟩

theorem C5_witness :
    4294967295 ≤ 4294967395 ∧ 4294967395 - 4294967295 < W ∧
    (elapsedMs 4294967395 (4294967295 % W) = 4294967395 - 4294967295 ∧
    (elapsedMs 4294967395 (4294967295 % W) > 180000 ↔
      4294967395 - 4294967295 > 180000)) :=
  ⟨by decide, by decide, C5_wraparound_elapsed 4294967295 4294967395 180000
    (by decide) (by decide)⟩

theorem C6_witness :
    run defaultConfig (initialState 0)
        (List.map (fun t => ((initialState 0).previousVibrationValue, t)) [1000, 2000]) =
      (initialState 0, []) :=
  C6_no_edge_idempotent defaultConfig (initialState 0) [1000, 2000]
    (by decide) (Reachable.init 0) (by decide)

theorem C7_witness :
    washerDryerStartedTrace connectSecondTry connectSecondTry
        connectSecondTry_succeeds connectSecondTry_succeeds =
      (List.replicate (Nat.find connectSecondTry_succeeds)
          (ChanAction.connectAttempt 1 false) ++
        [ChanAction.connectAttempt 1 true, ChanAction.setValue 1 1 STARTED_MESSAGE,
          ChanAction.post 1]) ++
      (List.replicate (Nat.find connectSecondTry_succeeds)
          (ChanAction.connectAttempt 2 false) ++
        [ChanAction.connectAttempt 2 true, ChanAction.setValue 2 1 STARTED_MESSAGE,
          ChanAction.post 2]) ∧
    washerDryerNotificationTrace connectSecondTry connectSecondTry
        connectSecondTry_succeeds connectSecondTry_succeeds =
      (List.replicate (Nat.find connectSecondTry_succeeds)
          (ChanAction.connectAttempt 1 false) ++
        [ChanAction.connectAttempt 1 true, ChanAction.setValue 1 1 STOPPED_MESSAGE,
          ChanAction.post 1]) ++
      (List.replicate (Nat.find connectSecondTry_succeeds)
          (ChanAction.connectAttempt 2 false) ++
        [ChanAction.connectAttempt 2 true, ChanAction.setValue 2 1 STOPPED_MESSAGE,
          ChanAction.post 2]) :=
  C7_notification_sequence connectSecondTry connectSecondTry
    connectSecondTry_succeeds connectSecondTry_succeeds

theorem C8_witness :
    (initialState 42).vibrationState = 1 ∧
    (initialState 42).vibrationCounter = 0 ∧
    (initialState 42).previousVibrationValue = 0 ∧
    (initialState 42).lastVibrationStateChange = 42 % W ∧
    (((initialState 42).vibrationState = 0 ∨ (initialState 42).vibrationState = 1) ∧
      ¬((initialState 42).vibrationState = 0 ∧ (initialState 42).vibrationState = 1)) :=
  C8_initial_state defaultConfig 42 (initialState 42) (Reachable.init 42)

theorem C9_witness :
    (loopTick { threshold := -1, stoppedDelayMs := 0, resetDelayMs := 0 } 0 0
        (initialState 0)).1.vibrationState = 0 ∧
    (loopTick { threshold := -1, stoppedDelayMs := 0, resetDelayMs := 0 } 0 0
        (initialState 0)).1.vibrationCounter = 0 :=
  ⟨by decide,
    C9_monitoring_counter_zero { threshold := -1, stoppedDelayMs := 0, resetDelayMs := 0 }
      (loopTick { threshold := -1, stoppedDelayMs := 0, resetDelayMs := 0 } 0 0
        (initialState 0)).1
      (Reachable.step (initialState 0) 0 0 (Or.inl rfl) (Reachable.init 0))
      (by decide)⟩
